import Mathlib

/-!
Verification of the FamilyHub secure-vault PIN/lockout module
(`src/lib/keyvault` in the repository: `saveSecret`, `getSecret`,
`saveUserPin`, `hasUserPin`, `getLockoutStatus`, `recordFailedAttempt`,
`clearUserLockout`, `verifyUserPin`, `getSecretWithPin`).

Modelling decisions, all traceable to the TypeScript source:

* The Azure Key Vault client is modelled as an oracle
  `Store : String → ReadOutcome`, mapping a derived secret name to
  `found e` (the stored payload), `notFound` (the SecretNotFound / 404
  case that the code checks for explicitly) or `failure` (any other
  error thrown by the client: network failure, misconfiguration, ...).
  Writes and deletes update the oracle pointwise and are assumed to
  succeed; `beginDeleteSecret` is modelled as making the name absent.

* Stored payloads are modelled by the inductive `StoreEntry`: a plain
  string saved by `saveSecret`, the JSON object `\x7b hash, salt \x7d`
  written by `saveUserPin`, or the JSON object
  `\x7b failedAttempts, lockedUntil \x7d` written by
  `recordFailedAttempt`.  `entryText` gives the raw string the client
  would return for each payload, and `entryValueFalsy` captures the
  JavaScript truthiness tests `!secret.value` / `if (existing.value)`
  (only the empty string is falsy among the values that can be stored).
  A `JSON.parse` applied to a payload of the wrong shape either throws
  (a plain non-empty string) or yields an object whose fields read as
  `undefined`; both behaviours are reproduced case by case below.

* `Date.now()` is an explicit `now : Nat` argument (milliseconds);
  `new Date(ms)` timestamps are kept as the underlying `Nat`.
  JavaScript truthiness of the number `lockoutData.lockedUntil` is
  `untilTruthy`: `null`/absent and `0` are falsy.

* `crypto.pbkdf2Sync` is an arbitrary function
  `hashPin : String → String → String` passed as a parameter (the
  development never relies on anything but its determinism; wrong-PIN
  facts take the no-collision hypothesis `hashPin wrong salt ≠ hash`
  explicitly, which is what PBKDF2 provides with overwhelming
  probability).  `crypto.randomBytes` makes `saveUserPin` take the
  generated salt as an argument.

* Error strings are abstracted to the inductive `ErrMsg`, one
  constructor per distinct message produced by the source, carrying the
  data interpolated into the message.  All thrown errors that the code
  propagates (store failures, JSON parse errors, the hash of an
  `undefined` salt) are collapsed to `VaultError.storeError`; the
  explicit `throw new Error('PIN must be 4-6 digits')` is
  `VaultError.invalidPinFormat`.  `attemptsLeft` is an `Int` because
  JavaScript arithmetic `MAX_PIN_ATTEMPTS - failedAttempts` can go
  negative on crafted states.
-/

deriving instance DecidableEq for Except

namespace FamilyHub

/-! ## Constants (source lines 6-7) -/

def MAX_PIN_ATTEMPTS : Nat := 3

def LOCKOUT_DURATION_MS : Nat := 15 * 60 * 1000

/-! ## The store model -/

inductive StoreEntry where
  | strVal (v : String)
  | pinVal (hash salt : String)
  | lockoutVal (failedAttempts : Nat) (lockedUntil : Option Nat)
deriving DecidableEq

inductive ReadOutcome where
  | found (e : StoreEntry)
  | notFound
  | failure
deriving DecidableEq

def Store : Type := String → ReadOutcome

def Store.set (s : Store) (name : String) (e : StoreEntry) : Store :=
  fun n => if n = name then ReadOutcome.found e else s n

def Store.del (s : Store) (name : String) : Store :=
  fun n => if n = name then ReadOutcome.notFound else s n

/-- The raw string value the Key Vault client returns for a payload:
`saveSecret` stores the value itself, the PIN and lockout records are
stored `JSON.stringify`-ed. -/
def entryText : StoreEntry → String
  | .strVal v => v
  | .pinVal h s =>
      "\x7b\"hash\":\"" ++ h ++ "\",\"salt\":\"" ++ s ++ "\"\x7d"
  | .lockoutVal n u =>
      "\x7b\"failedAttempts\":" ++ toString n ++
      (match u with
       | some t => ",\"lockedUntil\":" ++ toString t
       | none => ",\"lockedUntil\":null") ++ "\x7d"

/-- JavaScript truthiness of `secret.value`: among storable payloads only
the empty plain string is falsy (JSON texts are never empty). -/
def entryValueFalsy : StoreEntry → Bool
  | .strVal v => v == ""
  | _ => false

/-- JavaScript truthiness of the number-or-null `lockedUntil` field. -/
def untilTruthy : Option Nat → Bool
  | some u => u != 0
  | none => false

/-! ## Errors and results -/

inductive VaultError where
  | invalidPinFormat
  | storeError
deriving DecidableEq

inductive ErrMsg where
  | tooManyTryAfter (unlockTime : Option Nat)
  | tooManyTryIn15
  | incorrectPin (attemptsLeft : Int)
  | noPinSet
  | secretNotFound
deriving DecidableEq

structure LockStatus where
  locked : Bool
  attemptsLeft : Int
  unlockTime : Option Nat := none
deriving DecidableEq

structure VerifyResult where
  valid : Bool
  locked : Bool
  attemptsLeft : Int
  unlockTime : Option Nat := none
  error : Option ErrMsg := none
deriving DecidableEq

structure FetchResult where
  success : Bool
  value : Option String := none
  error : Option ErrMsg := none
  locked : Option Bool := none
  attemptsLeft : Option Int := none
deriving DecidableEq

/-! ## Name derivation (source lines 28-34, 160-173) -/

def sanitizeChar (c : Char) : Char :=
  if ('a' ≤ c ∧ c ≤ 'z') ∨ ('0' ≤ c ∧ c ≤ '9') ∨ c = '-' then c else '-'

/-- Models `.toLowerCase().replace(/[^a-z0-9-]/g, '-').substring(0, 127)`. -/
def sanitizeName (s : String) : String :=
  (((s.toList.map Char.toLower).map sanitizeChar).take 127).asString

def getSecretName (userId category key : String) : String :=
  sanitizeName (userId ++ "-" ++ category ++ "-" ++ key)

def getPinSecretName (userId : String) : String :=
  sanitizeName (userId ++ "-system-pin")

def getLockoutSecretName (userId : String) : String :=
  sanitizeName (userId ++ "-system-lockout")

inductive SecretCategory where
  | financial
  | identity
  | medical
deriving DecidableEq

def SecretCategory.text : SecretCategory → String
  | .financial => "financial"
  | .identity => "identity"
  | .medical => "medical"

def dataName (userId : String) (category : SecretCategory) (key : String) : String :=
  getSecretName userId category.text key

/-! ## Secret Store Adapter (source lines 36-75) -/

def saveSecret (store : Store) (userId : String) (category : SecretCategory)
    (key value : String) : Except VaultError Unit × Store :=
  (Except.ok (), store.set (dataName userId category key) (.strVal value))

/-- Source `getSecret`: 404 → `null`; a stored value is returned through
`secret.value || null`, so the empty string also comes back as `null`;
any other client failure is rethrown. -/
def getSecret (store : Store) (userId : String) (category : SecretCategory)
    (key : String) : Except VaultError (Option String) × Store :=
  match store (dataName userId category key) with
  | .found e =>
      if entryValueFalsy e then (Except.ok none, store)
      else (Except.ok (some (entryText e)), store)
  | .notFound => (Except.ok none, store)
  | .failure => (Except.error .storeError, store)

/-! ## PIN management (source lines 155-216, 305-314) -/

def validPinFormat (pin : String) : Bool :=
  decide (4 ≤ pin.toList.length) && decide (pin.toList.length ≤ 6) &&
    pin.toList.all Char.isDigit

def clearUserLockout (store : Store) (userId : String) : Store :=
  store.del (getLockoutSecretName userId)

/-- Source `saveUserPin`: format check, then store `\x7b hash, salt \x7d`, then
clear any lockout.  `salt` stands for the fresh `crypto.randomBytes`
output; `hashPin` for `pbkdf2Sync`. -/
def saveUserPin (hashPin : String → String → String) (store : Store)
    (userId pin salt : String) : Except VaultError Unit × Store :=
  if validPinFormat pin then
    let store1 := store.set (getPinSecretName userId) (.pinVal (hashPin pin salt) salt)
    (Except.ok (), clearUserLockout store1 userId)
  else
    (Except.error .invalidPinFormat, store)

def hasUserPin (store : Store) (userId : String) : Except VaultError Bool × Store :=
  match store (getPinSecretName userId) with
  | .found _ => (Except.ok true, store)
  | .notFound => (Except.ok false, store)
  | .failure => (Except.error .storeError, store)

/-! ## Lockout Tracker (source lines 219-302) -/

/-- Source `getLockoutStatus`: case analysis on the payload found under the
lockout name mirrors the JavaScript:
a falsy value short-circuits to the clean status; a lockout object is
interpreted through the two `lockedUntil` truthiness guards; a PIN
object parses as JSON but both fields read `undefined`
(`failedAttempts || 0` is `0`, `lockedUntil` falsy), giving the clean
status; a plain non-empty string makes `JSON.parse` throw, which the
`catch` rethrows since it is not a 404. -/
def getLockoutStatus (store : Store) (userId : String) (now : Nat) :
    Except VaultError LockStatus × Store :=
  match store (getLockoutSecretName userId) with
  | .notFound =>
      (Except.ok { locked := false, attemptsLeft := (MAX_PIN_ATTEMPTS : Int) }, store)
  | .failure => (Except.error .storeError, store)
  | .found e =>
      if entryValueFalsy e then
        (Except.ok { locked := false, attemptsLeft := (MAX_PIN_ATTEMPTS : Int) }, store)
      else
        match e with
        | .lockoutVal n u =>
            if untilTruthy u && decide (now < u.getD 0) then
              (Except.ok { locked := true, attemptsLeft := 0, unlockTime := some (u.getD 0) },
               store)
            else if untilTruthy u && decide (u.getD 0 ≤ now) then
              (Except.ok { locked := false, attemptsLeft := (MAX_PIN_ATTEMPTS : Int) },
               clearUserLockout store userId)
            else
              (Except.ok { locked := false, attemptsLeft := (MAX_PIN_ATTEMPTS : Int) - n },
               store)
        | .pinVal _ _ =>
            (Except.ok { locked := false, attemptsLeft := (MAX_PIN_ATTEMPTS : Int) }, store)
        | .strVal _ => (Except.error .storeError, store)

/-- Source `recordFailedAttempt`: the initial read sits in a catch-all `try`:
any outcome other than a well-formed lockout object — absence, a store
failure, or an unparsable/shape-mismatched payload — leaves the default
`\x7b failedAttempts: 0, lockedUntil: null \x7d`. -/
def recordFailedAttempt (store : Store) (userId : String) (now : Nat) :
    Except VaultError LockStatus × Store :=
  let prev : Nat × Option Nat :=
    match store (getLockoutSecretName userId) with
    | .found (.lockoutVal n u) => (n, u)
    | _ => (0, none)
  let fa := prev.1 + 1
  let lockedUntil : Option Nat :=
    if MAX_PIN_ATTEMPTS ≤ fa then some (now + LOCKOUT_DURATION_MS) else prev.2
  let store1 := store.set (getLockoutSecretName userId) (.lockoutVal fa lockedUntil)
  if untilTruthy lockedUntil then
    (Except.ok { locked := true, attemptsLeft := 0, unlockTime := some (lockedUntil.getD 0) },
     store1)
  else
    (Except.ok { locked := false, attemptsLeft := (MAX_PIN_ATTEMPTS : Int) - fa }, store1)

/-! ## Access Controller (source lines 317-407) -/

/-- Source `verifyUserPin`: lockout check first; then the PIN record is read
and compared.  A found payload that is not a PIN object either throws in
`JSON.parse` (plain string) or leaves `salt` `undefined` so that
`pbkdf2Sync` throws (lockout object); both propagate. -/
def verifyUserPin (hashPin : String → String → String) (store : Store)
    (userId pin : String) (now : Nat) : Except VaultError VerifyResult × Store :=
  match getLockoutStatus store userId now with
  | (Except.error e, s1) => (Except.error e, s1)
  | (Except.ok ls, s1) =>
      if ls.locked then
        (Except.ok { valid := false, locked := true, attemptsLeft := 0,
                     unlockTime := ls.unlockTime,
                     error := some (.tooManyTryAfter ls.unlockTime) }, s1)
      else
        match s1 (getPinSecretName userId) with
        | .notFound =>
            (Except.ok { valid := false, locked := false,
                         attemptsLeft := (MAX_PIN_ATTEMPTS : Int),
                         error := some .noPinSet }, s1)
        | .failure => (Except.error .storeError, s1)
        | .found e =>
            if entryValueFalsy e then
              (Except.ok { valid := false, locked := false,
                           attemptsLeft := ls.attemptsLeft,
                           error := some .noPinSet }, s1)
            else
              match e with
              | .pinVal h salt =>
                  if hashPin pin salt == h then
                    (Except.ok { valid := true, locked := false,
                                 attemptsLeft := (MAX_PIN_ATTEMPTS : Int) },
                     clearUserLockout s1 userId)
                  else
                    match recordFailedAttempt s1 userId now with
                    | (Except.error e2, s2) => (Except.error e2, s2)
                    | (Except.ok ns, s2) =>
                        (Except.ok { valid := false, locked := ns.locked,
                                     attemptsLeft := ns.attemptsLeft,
                                     unlockTime := ns.unlockTime,
                                     error := some (if ns.locked then .tooManyTryIn15
                                                    else .incorrectPin ns.attemptsLeft) },
                         s2)
              | _ => (Except.error .storeError, s1)

/-- Source `getSecretWithPin`: verify first, propagate the failure shape on an
invalid PIN, otherwise fetch the secret (`!value` catches both `null`
and the empty string, but `getSecret` already mapped the latter to
`null`). -/
def getSecretWithPin (hashPin : String → String → String) (store : Store)
    (userId pin : String) (category : SecretCategory) (key : String) (now : Nat) :
    Except VaultError FetchResult × Store :=
  match verifyUserPin hashPin store userId pin now with
  | (Except.error e, s1) => (Except.error e, s1)
  | (Except.ok pr, s1) =>
      if pr.valid then
        match getSecret s1 userId category key with
        | (Except.error e, s2) => (Except.error e, s2)
        | (Except.ok none, s2) =>
            (Except.ok { success := false, error := some .secretNotFound }, s2)
        | (Except.ok (some v), s2) =>
            (Except.ok { success := true, value := some v }, s2)
      else
        (Except.ok { success := false, error := pr.error, locked := some pr.locked,
                     attemptsLeft := some pr.attemptsLeft }, s1)

/-! ## Concrete material for witnesses -/

/-- Stand-in for `pbkdf2Sync(pin, salt, 100000, 64, sha512).toString(hex)`
when witnesses need a concrete, executable hash function; the theorems
themselves are parametric in `hashPin`. -/
def hashPinModel (pin salt : String) : String := salt ++ ":" ++ pin

/-- The empty store: every name absent. -/
def emptyStore : Store := fun _ => ReadOutcome.notFound

/-- A lockout read that the code treats as "clean with `n` recorded
failures": either the record is absent (and `n = 0`), or it holds
`failedAttempts = n` with a `null` `lockedUntil`. -/
def cleanLockoutRead (o : ReadOutcome) (n : Nat) : Prop :=
  (o = ReadOutcome.notFound ∧ n = 0) ∨ o = ReadOutcome.found (.lockoutVal n none)

/-! ## Concrete stores used by witnesses -/

/-- A store holding only the PIN record for user `alice` with PIN
`1234` hashed by the concrete stand-in hash. -/
def aliceStore : Store :=
  emptyStore.set (getPinSecretName "alice") (.pinVal (hashPinModel "1234" "salt") "salt")

/-- Store `aliceStore` plus a lockout record with one recorded failure. -/
def aliceStore1 : Store :=
  aliceStore.set (getLockoutSecretName "alice") (.lockoutVal 1 none)

/-- Store `aliceStore` plus an active lockout expiring at millisecond 1000. -/
def aliceLockedStore : Store :=
  aliceStore.set (getLockoutSecretName "alice") (.lockoutVal 3 (some 1000))

/-- A store whose every read fails (vault unreachable). -/
def failingStore : Store := fun _ => ReadOutcome.failure

/-- A userId long enough that the 127-character truncation makes the
derived PIN-record name and lockout-record name coincide. -/
def collidingUser : String := (List.replicate 119 'a').asString

/-! ## Basic store lemmas -/

@[simp]
theorem Store.set_self (s : Store) (n : String) (e : StoreEntry) :
    s.set n e n = ReadOutcome.found e := by
  simp [Store.set]

theorem Store.set_other (s : Store) (n m : String) (e : StoreEntry) (h : m ≠ n) :
    s.set n e m = s m := by
  simp [Store.set, h]

@[simp]
theorem Store.del_self (s : Store) (n : String) :
    s.del n n = ReadOutcome.notFound := by
  simp [Store.del]

theorem Store.del_other (s : Store) (n m : String) (h : m ≠ n) :
    s.del n m = s m := by
  simp [Store.del, h]

/-! ## Path lemmas for the Lockout Tracker -/

theorem getLockoutStatus_clean (store : Store) (u : String) (n now : Nat)
    (h : cleanLockoutRead (store (getLockoutSecretName u)) n) :
    getLockoutStatus store u now =
      (Except.ok { locked := false, attemptsLeft := (3 : Int) - n }, store) := by
  rcases h with ⟨h, rfl⟩ | h <;>
    simp [getLockoutStatus, h, entryValueFalsy, untilTruthy, MAX_PIN_ATTEMPTS]

theorem getLockoutStatus_locked (store : Store) (u : String) (n t now : Nat)
    (h : store (getLockoutSecretName u) = ReadOutcome.found (.lockoutVal n (some t)))
    (ht : 0 < t) (hnow : now < t) :
    getLockoutStatus store u now =
      (Except.ok { locked := true, attemptsLeft := 0, unlockTime := some t }, store) := by
  simp [getLockoutStatus, h, entryValueFalsy, untilTruthy, Nat.pos_iff_ne_zero.mp ht, hnow]

theorem getLockoutStatus_expired (store : Store) (u : String) (n t now : Nat)
    (h : store (getLockoutSecretName u) = ReadOutcome.found (.lockoutVal n (some t)))
    (ht : 0 < t) (hnow : t ≤ now) :
    getLockoutStatus store u now =
      (Except.ok { locked := false, attemptsLeft := (3 : Int) },
       clearUserLockout store u) := by
  simp [getLockoutStatus, h, entryValueFalsy, untilTruthy, Nat.pos_iff_ne_zero.mp ht,
    Nat.not_lt.mpr hnow, hnow, MAX_PIN_ATTEMPTS]

theorem recordFailedAttempt_clean (store : Store) (u : String) (n now : Nat)
    (h : cleanLockoutRead (store (getLockoutSecretName u)) n) (hn3 : n < 3) :
    recordFailedAttempt store u now =
      (Except.ok { locked := decide (2 ≤ n),
                   attemptsLeft := (3 : Int) - (n + 1),
                   unlockTime := if 2 ≤ n then some (now + LOCKOUT_DURATION_MS) else none },
       store.set (getLockoutSecretName u)
         (.lockoutVal (n + 1) (if 2 ≤ n then some (now + LOCKOUT_DURATION_MS) else none))) := by
  rcases h with ⟨h, rfl⟩ | h
  · simp [recordFailedAttempt, h, untilTruthy, MAX_PIN_ATTEMPTS]
  · rcases Nat.lt_or_ge n 2 with hn | hn
    · have h3 : ¬ MAX_PIN_ATTEMPTS ≤ n + 1 := by simp [MAX_PIN_ATTEMPTS]; omega
      simp [recordFailedAttempt, h, untilTruthy, h3, Nat.not_le.mpr hn,
        MAX_PIN_ATTEMPTS]
    · have hn2 : n = 2 := by omega
      subst hn2
      simp [recordFailedAttempt, h, untilTruthy, MAX_PIN_ATTEMPTS, LOCKOUT_DURATION_MS]

/-! ## Path lemmas for the Access Controller -/

theorem verifyUserPin_locked (hashPin : String → String → String) (store : Store)
    (u pin : String) (m t now : Nat)
    (h : store (getLockoutSecretName u) = ReadOutcome.found (.lockoutVal m (some t)))
    (ht : 0 < t) (hnow : now < t) :
    verifyUserPin hashPin store u pin now =
      (Except.ok { valid := false, locked := true, attemptsLeft := 0, unlockTime := some t,
                   error := some (.tooManyTryAfter (some t)) }, store) := by
  simp [verifyUserPin, getLockoutStatus_locked store u m t now h ht hnow]

theorem verifyUserPin_noPin (hashPin : String → String → String) (store : Store)
    (u pin : String) (n now : Nat)
    (hclean : cleanLockoutRead (store (getLockoutSecretName u)) n)
    (hpin : store (getPinSecretName u) = ReadOutcome.notFound) :
    verifyUserPin hashPin store u pin now =
      (Except.ok { valid := false, locked := false, attemptsLeft := 3,
                   error := some .noPinSet }, store) := by
  simp [verifyUserPin, getLockoutStatus_clean store u n now hclean, hpin, MAX_PIN_ATTEMPTS]

theorem verifyUserPin_correct (hashPin : String → String → String) (store : Store)
    (u pin h salt : String) (n now : Nat)
    (hclean : cleanLockoutRead (store (getLockoutSecretName u)) n)
    (hpin : store (getPinSecretName u) = ReadOutcome.found (.pinVal h salt))
    (hmatch : hashPin pin salt = h) :
    verifyUserPin hashPin store u pin now =
      (Except.ok { valid := true, locked := false, attemptsLeft := 3 },
       clearUserLockout store u) := by
  simp [verifyUserPin, getLockoutStatus_clean store u n now hclean, hpin, entryValueFalsy,
    hmatch, MAX_PIN_ATTEMPTS]

theorem verifyUserPin_wrong (hashPin : String → String → String) (store : Store)
    (u pin h salt : String) (n now : Nat)
    (hclean : cleanLockoutRead (store (getLockoutSecretName u)) n) (hn3 : n < 3)
    (hpin : store (getPinSecretName u) = ReadOutcome.found (.pinVal h salt))
    (hwrong : hashPin pin salt ≠ h) :
    verifyUserPin hashPin store u pin now =
      (Except.ok { valid := false, locked := decide (2 ≤ n),
                   attemptsLeft := (3 : Int) - (n + 1),
                   unlockTime := if 2 ≤ n then some (now + LOCKOUT_DURATION_MS) else none,
                   error := some (if 2 ≤ n then .tooManyTryIn15
                                  else .incorrectPin ((3 : Int) - (n + 1))) },
       store.set (getLockoutSecretName u)
         (.lockoutVal (n + 1)
           (if 2 ≤ n then some (now + LOCKOUT_DURATION_MS) else none))) := by
  rcases Nat.lt_or_ge n 2 with hn | hn
  · simp [verifyUserPin, getLockoutStatus_clean store u n now hclean, hpin, entryValueFalsy,
      hwrong, recordFailedAttempt_clean store u n now hclean hn3, Nat.not_le.mpr hn]
  · have hn2 : n = 2 := by omega
    subst hn2
    simp [verifyUserPin, getLockoutStatus_clean store u 2 now hclean, hpin, entryValueFalsy,
      hwrong, recordFailedAttempt_clean store u 2 now hclean hn3]

/-! ## Claim theorems -/

/-- Claim C8: For every PIN string that does not match 4-6 decimal digits,
`saveUserPin` fails with the invalid-format error and leaves the store
completely unchanged: no PIN record is created or overwritten and the
existing lockout record is not cleared. -/
theorem invalid_pin_format_rejected (hashPin : String → String → String) (store : Store)
    (u pin salt : String) (h : validPinFormat pin = false) :
    saveUserPin hashPin store u pin salt =
      (Except.error VaultError.invalidPinFormat, store) := by
  simp [saveUserPin, h]

theorem invalid_pin_format_rejected_witness :
    validPinFormat "12a4" = false ∧
    saveUserPin hashPinModel aliceLockedStore "alice" "12a4" "salt" =
      (Except.error VaultError.invalidPinFormat, aliceLockedStore) :=
  ⟨by decide, invalid_pin_format_rejected hashPinModel aliceLockedStore "alice" "12a4" "salt"
    (by decide)⟩

/-- Claim C9: For every userId with no PIN record stored (and no lockout
record), `verifyUserPin` returns `valid = false`, `locked = false` with
the distinguishable `No PIN set` error and does not record a failed
attempt: the store — and hence the persisted attempt budget — is the
same after the call as before. -/
theorem no_pin_set_no_attempt_consumed (hashPin : String → String → String) (store : Store)
    (u pin : String) (now : Nat)
    (hpin : store (getPinSecretName u) = ReadOutcome.notFound)
    (hlock : store (getLockoutSecretName u) = ReadOutcome.notFound) :
    verifyUserPin hashPin store u pin now =
      (Except.ok { valid := false, locked := false, attemptsLeft := 3,
                   error := some .noPinSet }, store) :=
  verifyUserPin_noPin hashPin store u pin 0 now (Or.inl ⟨hlock, rfl⟩) hpin

theorem no_pin_set_no_attempt_consumed_witness :
    verifyUserPin hashPinModel emptyStore "carol" "1234" 7 =
      (Except.ok { valid := false, locked := false, attemptsLeft := 3,
                   error := some .noPinSet }, emptyStore) :=
  no_pin_set_no_attempt_consumed hashPinModel emptyStore "carol" "1234" 7 rfl rfl

/-- Claim C4: When a read from the store fails with anything other than a
confirmed not-found, `getSecret`, `hasUserPin` and `getLockoutStatus`
all propagate the failure as a distinct error and never treat it as
absence of the record; `recordFailedAttempt`, whose read sits inside a
catch-all, swallows the failure but then persists `failedAttempts = 1`,
never zero. -/
theorem store_failure_propagation (store : Store) (u key : String) (c : SecretCategory)
    (now : Nat)
    (hdata : store (dataName u c key) = ReadOutcome.failure)
    (hpin : store (getPinSecretName u) = ReadOutcome.failure)
    (hlock : store (getLockoutSecretName u) = ReadOutcome.failure) :
    getSecret store u c key = (Except.error VaultError.storeError, store) ∧
    hasUserPin store u = (Except.error VaultError.storeError, store) ∧
    getLockoutStatus store u now = (Except.error VaultError.storeError, store) ∧
    recordFailedAttempt store u now =
      (Except.ok { locked := false, attemptsLeft := 2 },
       store.set (getLockoutSecretName u) (.lockoutVal 1 none)) := by
  refine ⟨?_, ?_, ?_, ?_⟩ <;>
    simp [getSecret, hasUserPin, getLockoutStatus, recordFailedAttempt, hdata, hpin, hlock,
      untilTruthy, MAX_PIN_ATTEMPTS]

theorem store_failure_propagation_witness :
    getSecret failingStore "u" SecretCategory.financial "k" =
      (Except.error VaultError.storeError, failingStore) ∧
    hasUserPin failingStore "u" = (Except.error VaultError.storeError, failingStore) ∧
    getLockoutStatus failingStore "u" 5 = (Except.error VaultError.storeError, failingStore) ∧
    recordFailedAttempt failingStore "u" 5 =
      (Except.ok { locked := false, attemptsLeft := 2 },
       failingStore.set (getLockoutSecretName "u") (.lockoutVal 1 none)) :=
  store_failure_propagation failingStore "u" "k" SecretCategory.financial 5 rfl rfl rfl

/-- Claim C7: For a user in the clean state, a successful verification
with the correct PIN deletes the lockout record, so the next status
check reports the full budget of 3 attempts. -/
theorem success_resets_attempt_budget (hashPin : String → String → String) (store : Store)
    (u pin h salt : String) (n now now2 : Nat)
    (hpin : store (getPinSecretName u) = ReadOutcome.found (.pinVal h salt))
    (hlock : store (getLockoutSecretName u) = ReadOutcome.found (.lockoutVal n none))
    (_hn : n < 3)
    (hmatch : hashPin pin salt = h) :
    verifyUserPin hashPin store u pin now =
      (Except.ok { valid := true, locked := false, attemptsLeft := 3 },
       store.del (getLockoutSecretName u)) ∧
    getLockoutStatus (store.del (getLockoutSecretName u)) u now2 =
      (Except.ok { locked := false, attemptsLeft := 3 },
       store.del (getLockoutSecretName u)) := by
  constructor
  · simpa [clearUserLockout] using
      verifyUserPin_correct hashPin store u pin h salt n now (Or.inr hlock) hpin hmatch
  · simpa using
      getLockoutStatus_clean (store.del (getLockoutSecretName u)) u 0 now2
        (Or.inl ⟨Store.del_self store (getLockoutSecretName u), rfl⟩)

theorem success_resets_attempt_budget_witness :
    verifyUserPin hashPinModel aliceStore1 "alice" "1234" 50 =
      (Except.ok { valid := true, locked := false, attemptsLeft := 3 },
       aliceStore1.del (getLockoutSecretName "alice")) ∧
    getLockoutStatus (aliceStore1.del (getLockoutSecretName "alice")) "alice" 60 =
      (Except.ok { locked := false, attemptsLeft := 3 },
       aliceStore1.del (getLockoutSecretName "alice")) :=
  success_resets_attempt_budget hashPinModel aliceStore1 "alice" "1234"
    (hashPinModel "1234" "salt") "salt" 1 50 60 (by decide) (by decide) (by decide) rfl

/-- Claim C10: `verifyUserPin` performs no PIN-format validation: for a
user with a PIN set and a clean lockout state, any supplied string
whose hash differs from the stored hash — numeric or not, of any
length — is treated as a wrong PIN and consumes exactly one attempt of
the lockout budget (the persisted counter goes from `n` to `n + 1`). -/
theorem verify_pin_no_format_check (hashPin : String → String → String) (store : Store)
    (u s h salt : String) (n now : Nat)
    (hpin : store (getPinSecretName u) = ReadOutcome.found (.pinVal h salt))
    (hlock : store (getLockoutSecretName u) = ReadOutcome.found (.lockoutVal n none))
    (hn3 : n < 3)
    (hwrong : hashPin s salt ≠ h) :
    (verifyUserPin hashPin store u s now).1 =
      Except.ok { valid := false, locked := decide (2 ≤ n),
                  attemptsLeft := (3 : Int) - (n + 1),
                  unlockTime := if 2 ≤ n then some (now + LOCKOUT_DURATION_MS) else none,
                  error := some (if 2 ≤ n then .tooManyTryIn15
                                 else .incorrectPin ((3 : Int) - (n + 1))) } ∧
    (verifyUserPin hashPin store u s now).2 (getLockoutSecretName u) =
      ReadOutcome.found
        (.lockoutVal (n + 1)
          (if 2 ≤ n then some (now + LOCKOUT_DURATION_MS) else none)) := by
  rw [verifyUserPin_wrong hashPin store u s h salt n now (Or.inr hlock) hn3 hpin hwrong]
  exact ⟨rfl, Store.set_self _ _ _⟩

theorem verify_pin_no_format_check_witness :
    (verifyUserPin hashPinModel aliceStore1 "alice" "not-a-pin!" 40).1 =
      Except.ok { valid := false, locked := false, attemptsLeft := 1,
                  error := some (.incorrectPin 1) } ∧
    (verifyUserPin hashPinModel aliceStore1 "alice" "not-a-pin!" 40).2
        (getLockoutSecretName "alice") =
      ReadOutcome.found (.lockoutVal 2 none) :=
  verify_pin_no_format_check hashPinModel aliceStore1 "alice" "not-a-pin!"
    (hashPinModel "1234" "salt") "salt" 1 40 (by decide) (by decide) (by decide) (by decide)

/-- Claim C1, counterexample: The claim quantifies over every userId, but
for a 119-character userId the truncated PIN and lockout names collide,
so the lockout clear inside `saveUserPin` deletes the PIN record that
was just written: `verifyUserPin` with the very PIN that was just set
answers `valid = false` with the `No PIN set` error instead of
`valid = true`. -/
theorem pin_roundtrip_collision_cex :
    validPinFormat "1234" = true ∧
    (verifyUserPin hashPinModel
        ((saveUserPin hashPinModel emptyStore collidingUser "1234" "salt").2)
        collidingUser "1234" 0).1 =
      Except.ok { valid := false, locked := false, attemptsLeft := 3,
                  error := some .noPinSet } := by
  constructor
  · decide
  · decide

/-- Claim C1, amended: For every userId whose derived PIN-record name
differs from its derived lockout-record name (true for every sanitized
userId shorter than 119 characters; the two can only coincide through
the 127-character truncation) and every PIN matching 4-6 decimal
digits, `saveUserPin` followed by `verifyUserPin` with the same userId
and PIN returns `valid = true`. -/
theorem pin_roundtrip_valid (hashPin : String → String → String) (store : Store)
    (u pin salt : String) (now : Nat)
    (hfmt : validPinFormat pin = true)
    (hnames : getPinSecretName u ≠ getLockoutSecretName u) :
    verifyUserPin hashPin ((saveUserPin hashPin store u pin salt).2) u pin now =
      (Except.ok { valid := true, locked := false, attemptsLeft := 3 },
       clearUserLockout ((saveUserPin hashPin store u pin salt).2) u) := by
  have hsave : (saveUserPin hashPin store u pin salt).2 =
      (store.set (getPinSecretName u) (.pinVal (hashPin pin salt) salt)).del
        (getLockoutSecretName u) := by
    simp [saveUserPin, hfmt, clearUserLockout]
  rw [hsave]
  refine verifyUserPin_correct hashPin _ u pin (hashPin pin salt) salt 0 now
    (Or.inl ⟨Store.del_self _ _, rfl⟩) ?_ rfl
  rw [Store.del_other _ _ _ hnames, Store.set_self]

theorem pin_roundtrip_valid_witness :
    verifyUserPin hashPinModel
        ((saveUserPin hashPinModel emptyStore "alice" "1234" "salt").2) "alice" "1234" 9 =
      (Except.ok { valid := true, locked := false, attemptsLeft := 3 },
       clearUserLockout ((saveUserPin hashPinModel emptyStore "alice" "1234" "salt").2)
         "alice") :=
  pin_roundtrip_valid hashPinModel emptyStore "alice" "1234" "salt" 9 (by decide) (by decide)

/-- Claim C3: For a userId whose lockout record carries
`lockedUntil = t` (a genuine timestamp, `t > 0`): a verification
attempt at any time strictly before `t` is rejected with
`locked = true` and leaves the store untouched; an attempt at any time
at or after `t` deletes the lockout record, reports a fresh budget of 3
attempts, and behaves exactly as a verification against a store with no
lockout record at all — the supplied PIN is evaluated normally against
the stored hash. -/
theorem lockout_expiry_boundary (hashPin : String → String → String) (store : Store)
    (u pin : String) (n t now : Nat)
    (hlock : store (getLockoutSecretName u) = ReadOutcome.found (.lockoutVal n (some t)))
    (ht : 0 < t) :
    (now < t →
      verifyUserPin hashPin store u pin now =
        (Except.ok { valid := false, locked := true, attemptsLeft := 0, unlockTime := some t,
                     error := some (.tooManyTryAfter (some t)) }, store)) ∧
    (t ≤ now →
      getLockoutStatus store u now =
        (Except.ok { locked := false, attemptsLeft := 3 },
         store.del (getLockoutSecretName u)) ∧
      verifyUserPin hashPin store u pin now =
        verifyUserPin hashPin (store.del (getLockoutSecretName u)) u pin now) := by
  constructor
  · intro hnow
    exact verifyUserPin_locked hashPin store u pin n t now hlock ht hnow
  · intro hnow
    have hexp := getLockoutStatus_expired store u n t now hlock ht hnow
    have hcln := getLockoutStatus_clean (store.del (getLockoutSecretName u)) u 0 now
      (Or.inl ⟨Store.del_self _ _, rfl⟩)
    constructor
    · simpa [clearUserLockout] using hexp
    · have hdel : (store.del (getLockoutSecretName u)) (getPinSecretName u) =
        store (getPinSecretName u) ∨
          getPinSecretName u = getLockoutSecretName u := by
        by_cases heq : getPinSecretName u = getLockoutSecretName u
        · exact Or.inr heq
        · exact Or.inl (Store.del_other _ _ _ heq)
      simp only [verifyUserPin, hexp, hcln, clearUserLockout]
      rcases hdel with hdel | hdel
      · simp [hdel]
      · simp [hdel, Store.del_self]

theorem lockout_expiry_boundary_witness :
    (1000 < 1000 →
      verifyUserPin hashPinModel aliceLockedStore "alice" "1234" 1000 =
        (Except.ok { valid := false, locked := true, attemptsLeft := 0,
                     unlockTime := some 1000,
                     error := some (.tooManyTryAfter (some 1000)) }, aliceLockedStore)) ∧
    (1000 ≤ 1000 →
      getLockoutStatus aliceLockedStore "alice" 1000 =
        (Except.ok { locked := false, attemptsLeft := 3 },
         aliceLockedStore.del (getLockoutSecretName "alice")) ∧
      verifyUserPin hashPinModel aliceLockedStore "alice" "1234" 1000 =
        verifyUserPin hashPinModel (aliceLockedStore.del (getLockoutSecretName "alice"))
          "alice" "1234" 1000) :=
  lockout_expiry_boundary hashPinModel aliceLockedStore "alice" "1234" 3 1000 1000
    (by decide) (by decide)

/-- Claim C2: For a userId with a PIN set and no lockout record, three
consecutive wrong verifications report `attemptsLeft` 2, 1, 0 in that
order; the third answer has `locked = true` with `unlockTime` equal to
the time of the third call plus 15 minutes; and a fourth attempt while
still locked is rejected with `locked = true` uniformly in the supplied
PIN — the answer is the same for every string, so no hash of it is
consulted — and without touching the store. -/
theorem three_wrong_attempts_lock (hashPin : String → String → String) (store : Store)
    (u wrong h salt : String) (now1 now2 now3 now4 : Nat)
    (hpin : store (getPinSecretName u) = ReadOutcome.found (.pinVal h salt))
    (hwrong : hashPin wrong salt ≠ h)
    (hlock : store (getLockoutSecretName u) = ReadOutcome.notFound)
    (h4 : now4 < now3 + LOCKOUT_DURATION_MS) :
    verifyUserPin hashPin store u wrong now1 =
      (Except.ok { valid := false, locked := false, attemptsLeft := 2,
                   error := some (.incorrectPin 2) },
       store.set (getLockoutSecretName u) (.lockoutVal 1 none)) ∧
    verifyUserPin hashPin (store.set (getLockoutSecretName u) (.lockoutVal 1 none))
        u wrong now2 =
      (Except.ok { valid := false, locked := false, attemptsLeft := 1,
                   error := some (.incorrectPin 1) },
       ((store.set (getLockoutSecretName u) (.lockoutVal 1 none)).set
         (getLockoutSecretName u) (.lockoutVal 2 none))) ∧
    verifyUserPin hashPin
        ((store.set (getLockoutSecretName u) (.lockoutVal 1 none)).set
          (getLockoutSecretName u) (.lockoutVal 2 none)) u wrong now3 =
      (Except.ok { valid := false, locked := true, attemptsLeft := 0,
                   unlockTime := some (now3 + LOCKOUT_DURATION_MS),
                   error := some .tooManyTryIn15 },
       (((store.set (getLockoutSecretName u) (.lockoutVal 1 none)).set
          (getLockoutSecretName u) (.lockoutVal 2 none)).set
         (getLockoutSecretName u) (.lockoutVal 3 (some (now3 + LOCKOUT_DURATION_MS))))) ∧
    ∀ p, verifyUserPin hashPin
        (((store.set (getLockoutSecretName u) (.lockoutVal 1 none)).set
           (getLockoutSecretName u) (.lockoutVal 2 none)).set
          (getLockoutSecretName u) (.lockoutVal 3 (some (now3 + LOCKOUT_DURATION_MS))))
        u p now4 =
      (Except.ok { valid := false, locked := true, attemptsLeft := 0,
                   unlockTime := some (now3 + LOCKOUT_DURATION_MS),
                   error := some (.tooManyTryAfter (some (now3 + LOCKOUT_DURATION_MS))) },
       (((store.set (getLockoutSecretName u) (.lockoutVal 1 none)).set
          (getLockoutSecretName u) (.lockoutVal 2 none)).set
         (getLockoutSecretName u) (.lockoutVal 3 (some (now3 + LOCKOUT_DURATION_MS))))) := by
  have hpn : getPinSecretName u ≠ getLockoutSecretName u := by
    intro e
    rw [e, hlock] at hpin
    exact absurd hpin (by simp)
  refine ⟨?_, ?_, ?_, ?_⟩
  · simpa using
      verifyUserPin_wrong hashPin store u wrong h salt 0 now1 (Or.inl ⟨hlock, rfl⟩)
        (by omega) hpin hwrong
  · have hpin2 : (store.set (getLockoutSecretName u) (.lockoutVal 1 none))
        (getPinSecretName u) = ReadOutcome.found (.pinVal h salt) := by
      rw [Store.set_other _ _ _ _ hpn, hpin]
    simpa using
      verifyUserPin_wrong hashPin _ u wrong h salt 1 now2 (Or.inr (Store.set_self _ _ _))
        (by omega) hpin2 hwrong
  · have hpin3 : ((store.set (getLockoutSecretName u) (.lockoutVal 1 none)).set
        (getLockoutSecretName u) (.lockoutVal 2 none)) (getPinSecretName u) =
        ReadOutcome.found (.pinVal h salt) := by
      rw [Store.set_other _ _ _ _ hpn, Store.set_other _ _ _ _ hpn, hpin]
    simpa using
      verifyUserPin_wrong hashPin _ u wrong h salt 2 now3 (Or.inr (Store.set_self _ _ _))
        (by omega) hpin3 hwrong
  · intro p
    exact verifyUserPin_locked hashPin _ u p 3 (now3 + LOCKOUT_DURATION_MS) now4
      (Store.set_self _ _ _) (by simp [LOCKOUT_DURATION_MS]) h4

theorem three_wrong_attempts_lock_witness :
    verifyUserPin hashPinModel aliceStore "alice" "0000" 10 =
      (Except.ok { valid := false, locked := false, attemptsLeft := 2,
                   error := some (.incorrectPin 2) },
       aliceStore.set (getLockoutSecretName "alice") (.lockoutVal 1 none)) ∧
    verifyUserPin hashPinModel
        (aliceStore.set (getLockoutSecretName "alice") (.lockoutVal 1 none))
        "alice" "0000" 20 =
      (Except.ok { valid := false, locked := false, attemptsLeft := 1,
                   error := some (.incorrectPin 1) },
       ((aliceStore.set (getLockoutSecretName "alice") (.lockoutVal 1 none)).set
         (getLockoutSecretName "alice") (.lockoutVal 2 none))) ∧
    verifyUserPin hashPinModel
        ((aliceStore.set (getLockoutSecretName "alice") (.lockoutVal 1 none)).set
          (getLockoutSecretName "alice") (.lockoutVal 2 none)) "alice" "0000" 30 =
      (Except.ok { valid := false, locked := true, attemptsLeft := 0,
                   unlockTime := some (30 + LOCKOUT_DURATION_MS),
                   error := some .tooManyTryIn15 },
       (((aliceStore.set (getLockoutSecretName "alice") (.lockoutVal 1 none)).set
          (getLockoutSecretName "alice") (.lockoutVal 2 none)).set
         (getLockoutSecretName "alice")
           (.lockoutVal 3 (some (30 + LOCKOUT_DURATION_MS))))) ∧
    ∀ p, verifyUserPin hashPinModel
        (((aliceStore.set (getLockoutSecretName "alice") (.lockoutVal 1 none)).set
           (getLockoutSecretName "alice") (.lockoutVal 2 none)).set
          (getLockoutSecretName "alice") (.lockoutVal 3 (some (30 + LOCKOUT_DURATION_MS))))
        "alice" p 40 =
      (Except.ok { valid := false, locked := true, attemptsLeft := 0,
                   unlockTime := some (30 + LOCKOUT_DURATION_MS),
                   error := some (.tooManyTryAfter (some (30 + LOCKOUT_DURATION_MS))) },
       (((aliceStore.set (getLockoutSecretName "alice") (.lockoutVal 1 none)).set
          (getLockoutSecretName "alice") (.lockoutVal 2 none)).set
         (getLockoutSecretName "alice")
           (.lockoutVal 3 (some (30 + LOCKOUT_DURATION_MS))))) :=
  three_wrong_attempts_lock hashPinModel aliceStore "alice" "0000"
    (hashPinModel "1234" "salt") "salt" 10 20 30 40 (by decide) (by decide) (by decide)
    (by decide)

/-- Claim C5, counterexample: The claim quantifies over every saved value
string, but `getSecret` returns the stored value through
`secret.value || null`, so a saved empty string reads back as `null`:
with the correct PIN and the empty string previously saved under
(financial, ssn), `getSecretWithPin` answers `success = false` with the
not-found error instead of `success = true` with the saved value. -/
theorem get_secret_empty_value_cex :
    (getSecretWithPin hashPinModel
        ((saveSecret aliceStore "alice" SecretCategory.financial "ssn" "").2)
        "alice" "1234" SecretCategory.financial "ssn" 0).1 =
      Except.ok { success := false, error := some .secretNotFound } := by
  decide

/-- Claim C5, amended: For every userId holding a PIN record and no
lockout record, and every **non-empty** value string `v` stored under
the derived name for (category, key) — which is what `saveSecret`
writes — `getSecretWithPin` with the correct PIN returns
`success = true` with exactly `v`; and with the correct PIN but a
(category, key) under which no secret is stored it returns
`success = false` with the not-found error and a result whose `locked`
and `attemptsLeft` fields are absent. -/
theorem get_secret_with_pin_correct (hashPin : String → String → String) (store : Store)
    (u pin h salt v key : String) (c : SecretCategory) (now : Nat)
    (hpin : store (getPinSecretName u) = ReadOutcome.found (.pinVal h salt))
    (hmatch : hashPin pin salt = h)
    (hlock : store (getLockoutSecretName u) = ReadOutcome.notFound)
    (hdata : store (dataName u c key) = ReadOutcome.found (.strVal v))
    (hv : v ≠ "") :
    getSecretWithPin hashPin store u pin c key now =
      (Except.ok { success := true, value := some v },
       store.del (getLockoutSecretName u)) ∧
    ∀ key2, store (dataName u c key2) = ReadOutcome.notFound →
      getSecretWithPin hashPin store u pin c key2 now =
        (Except.ok { success := false, error := some .secretNotFound },
         store.del (getLockoutSecretName u)) := by
  have hverify := verifyUserPin_correct hashPin store u pin h salt 0 now
    (Or.inl ⟨hlock, rfl⟩) hpin hmatch
  have hnd : dataName u c key ≠ getLockoutSecretName u := by
    intro e
    rw [e, hlock] at hdata
    exact absurd hdata (by simp)
  constructor
  · have hread : (store.del (getLockoutSecretName u)) (dataName u c key) =
        ReadOutcome.found (.strVal v) := by
      rw [Store.del_other _ _ _ hnd, hdata]
    simp [getSecretWithPin, hverify, clearUserLockout, getSecret, hread, entryValueFalsy,
      entryText, hv]
  · intro key2 h2
    have hread2 : (store.del (getLockoutSecretName u)) (dataName u c key2) =
        ReadOutcome.notFound := by
      by_cases heq : dataName u c key2 = getLockoutSecretName u
      · rw [heq, Store.del_self]
      · rw [Store.del_other _ _ _ heq, h2]
    simp [getSecretWithPin, hverify, clearUserLockout, getSecret, hread2]

theorem get_secret_with_pin_correct_witness :
    getSecretWithPin hashPinModel
        ((saveSecret aliceStore "alice" SecretCategory.financial "ssn" "123-45-6789").2)
        "alice" "1234" SecretCategory.financial "ssn" 0 =
      (Except.ok { success := true, value := some "123-45-6789" },
       ((saveSecret aliceStore "alice" SecretCategory.financial "ssn" "123-45-6789").2).del
         (getLockoutSecretName "alice")) ∧
    ∀ key2, ((saveSecret aliceStore "alice" SecretCategory.financial "ssn"
        "123-45-6789").2) (dataName "alice" SecretCategory.financial key2) =
        ReadOutcome.notFound →
      getSecretWithPin hashPinModel
          ((saveSecret aliceStore "alice" SecretCategory.financial "ssn" "123-45-6789").2)
          "alice" "1234" SecretCategory.financial key2 0 =
        (Except.ok { success := false, error := some .secretNotFound },
         ((saveSecret aliceStore "alice" SecretCategory.financial "ssn"
           "123-45-6789").2).del (getLockoutSecretName "alice")) :=
  get_secret_with_pin_correct hashPinModel
    ((saveSecret aliceStore "alice" SecretCategory.financial "ssn" "123-45-6789").2)
    "alice" "1234" (hashPinModel "1234" "salt") "salt" "123-45-6789" "ssn"
    SecretCategory.financial 0 (by decide) rfl (by decide) (by decide) (by decide)

/-- Claim C6: For a user with a PIN set and a clean lockout state, calling
`getSecretWithPin` with a wrong PIN (i) propagates the `verifyUserPin`
failure shape unchanged (error, locked, attemptsLeft), (ii) decrements
the attempt budget by exactly one — the persisted counter goes from `n`
to `n + 1` and nothing outside the lockout record changes — and
(iii) never consults the store under the requested (category, key): the
answer is unchanged when the payload stored there is replaced by
anything whatsoever. -/
theorem wrong_pin_never_reads_secret (hashPin : String → String → String) (store : Store)
    (u wrong h salt key : String) (c : SecretCategory) (n now : Nat)
    (hpin : store (getPinSecretName u) = ReadOutcome.found (.pinVal h salt))
    (hwrong : hashPin wrong salt ≠ h)
    (hlock : store (getLockoutSecretName u) = ReadOutcome.found (.lockoutVal n none))
    (hn3 : n < 3)
    (hd1 : dataName u c key ≠ getPinSecretName u)
    (hd2 : dataName u c key ≠ getLockoutSecretName u) :
    (∀ vr s1, verifyUserPin hashPin store u wrong now = (Except.ok vr, s1) →
      getSecretWithPin hashPin store u wrong c key now =
        (Except.ok { success := false, error := vr.error, locked := some vr.locked,
                     attemptsLeft := some vr.attemptsLeft }, s1)) ∧
    (getSecretWithPin hashPin store u wrong c key now).2 (getLockoutSecretName u) =
      ReadOutcome.found (.lockoutVal (n + 1)
        (if 2 ≤ n then some (now + LOCKOUT_DURATION_MS) else none)) ∧
    (∀ m, m ≠ getLockoutSecretName u →
      (getSecretWithPin hashPin store u wrong c key now).2 m = store m) ∧
    (∀ e, (getSecretWithPin hashPin (store.set (dataName u c key) e) u wrong c key
        now).1 = (getSecretWithPin hashPin store u wrong c key now).1) := by
  have hverify := verifyUserPin_wrong hashPin store u wrong h salt n now (Or.inr hlock)
    hn3 hpin hwrong
  have hfetch : getSecretWithPin hashPin store u wrong c key now =
      (Except.ok { success := false,
                   error := some (if 2 ≤ n then .tooManyTryIn15
                                  else .incorrectPin ((3 : Int) - (n + 1))),
                   locked := some (decide (2 ≤ n)),
                   attemptsLeft := some ((3 : Int) - (n + 1)) },
       store.set (getLockoutSecretName u)
         (.lockoutVal (n + 1)
           (if 2 ≤ n then some (now + LOCKOUT_DURATION_MS) else none))) := by
    simp [getSecretWithPin, hverify]
  refine ⟨?_, ?_, ?_, ?_⟩
  · intro vr s1 hv
    rw [hverify] at hv
    obtain ⟨h1, h2⟩ := Prod.mk.injEq .. ▸ hv
    cases Except.ok.injEq .. ▸ h1
    rw [hfetch, h2]
  · rw [hfetch]
    exact Store.set_self _ _ _
  · intro m hm
    rw [hfetch]
    exact Store.set_other _ _ _ _ hm
  · intro e
    have hpin2 : (store.set (dataName u c key) e) (getPinSecretName u) =
        ReadOutcome.found (.pinVal h salt) := by
      rw [Store.set_other _ _ _ _ (Ne.symm hd1), hpin]
    have hlock2 : (store.set (dataName u c key) e) (getLockoutSecretName u) =
        ReadOutcome.found (.lockoutVal n none) := by
      rw [Store.set_other _ _ _ _ (Ne.symm hd2), hlock]
    have hverify2 := verifyUserPin_wrong hashPin (store.set (dataName u c key) e) u wrong
      h salt n now (Or.inr hlock2) hn3 hpin2 hwrong
    rw [hfetch]
    simp [getSecretWithPin, hverify2]

theorem wrong_pin_never_reads_secret_witness :
    (∀ vr s1, verifyUserPin hashPinModel aliceStore1 "alice" "0000" 70 =
        (Except.ok vr, s1) →
      getSecretWithPin hashPinModel aliceStore1 "alice" "0000"
          SecretCategory.financial "ssn" 70 =
        (Except.ok { success := false, error := vr.error, locked := some vr.locked,
                     attemptsLeft := some vr.attemptsLeft }, s1)) ∧
    (getSecretWithPin hashPinModel aliceStore1 "alice" "0000"
        SecretCategory.financial "ssn" 70).2 (getLockoutSecretName "alice") =
      ReadOutcome.found (.lockoutVal 2
        (if 2 ≤ 1 then some (70 + LOCKOUT_DURATION_MS) else none)) ∧
    (∀ m, m ≠ getLockoutSecretName "alice" →
      (getSecretWithPin hashPinModel aliceStore1 "alice" "0000"
          SecretCategory.financial "ssn" 70).2 m = aliceStore1 m) ∧
    (∀ e, (getSecretWithPin hashPinModel
        (aliceStore1.set (dataName "alice" SecretCategory.financial "ssn") e)
        "alice" "0000" SecretCategory.financial "ssn" 70).1 =
      (getSecretWithPin hashPinModel aliceStore1 "alice" "0000"
        SecretCategory.financial "ssn" 70).1) :=
  wrong_pin_never_reads_secret hashPinModel aliceStore1 "alice" "0000"
    (hashPinModel "1234" "salt") "salt" "ssn" SecretCategory.financial 1 70
    (by decide) (by decide) (by decide) (by decide) (by decide) (by decide)

end FamilyHub
